import Mathlib

/-!
Verification of the cache-synchronization logic of the bookstore client
(src/index.js): the cache-backed loader `fetchAndDisplayBooks`, the create
handler `handleBookFormSubmit`, and the delete handler `deleteBook`, modelled
as pure functions over an explicit DOM/localStorage state with the network
outcome passed in as a parameter.
-/

namespace BookstoreDom

/-- A parsed book record, as returned by the remote store. -/
structure Book where
  id : String
  title : String
  author : String
  year : Int
  genre : String
deriving DecidableEq, Repr

/-- One element of a parsed cache array.  A stored JSON array may hold, besides
book objects, `null` (reading `.id` on it throws a TypeError) or another falsy
primitive such as `0`, `""` or `false` (reading `.id` on those yields
`undefined` without throwing). -/
inductive Entry where
  | book (b : Book)
  | nullE
  | falsy
deriving DecidableEq, Repr

/-- The content of the `books-container` element: the static markup present at
page load (abstracted by its child-element count), a sequence of rendered book
cards, the "No books found" message, or the fetch-failure error message
(carrying the `error.message` interpolated into it). -/
inductive Display where
  | pageInitial (children : Nat)
  | cards (l : List Entry)
  | noBooksMsg
  | errorMsg (msg : String)
deriving DecidableEq, Repr

/-- The DOM state the handlers read and write: the container content and
whether the `loading-message` element carries the `hidden` class. -/
structure Dom where
  display : Display
  loadingHidden : Bool
deriving DecidableEq, Repr

/-- The value stored under the `cachedBooks` localStorage key: either a string
that `JSON.parse` turns into an array of entries, or one on which `JSON.parse`
throws (carrying the engine's error message). -/
inductive CachedData where
  | arr (l : List Entry)
  | corrupt (errMsg : String)
deriving DecidableEq, Repr

/-- Program state: DOM plus the localStorage slot (`none` = key absent). -/
structure Env where
  dom : Dom
  cache : Option CachedData
deriving DecidableEq, Repr

/-- A JSON value appearing in the POST payload. -/
inductive JVal where
  | str (s : String)
  | int (n : Int)
deriving DecidableEq, Repr

/-- Observable effects emitted by a handler run, in order: calls to
`renderBooks`, cache writes/removals, network requests, alerts, form reset. -/
inductive Effect where
  | render (l : List Entry)
  | removeCache
  | setCache (l : List Entry)
  | netGet
  | netPost (body : List (String × JVal))
  | netDelete (id : String)
  | alert (msg : String)
  | formReset
deriving DecidableEq, Repr

/-- `renderBooks` (src/index.js lines 61-75): clear the container; if the list
is empty show the "No books found" message, else append one card per entry.
`createBookCard` reads `book.id`, which throws on a `null` entry, aborting the
loop; cards appended before the throw remain.  Returns the resulting container
content and whether the render threw. -/
def renderBooks (books : List Entry) : Display × Bool :=
  if books.isEmpty then (Display.noBooksMsg, false)
  else
    let pre := books.takeWhile (fun e => match e with
      | Entry.nullE => false
      | _ => true)
    if pre.length = books.length then (Display.cards books, false)
    else (Display.cards pre, true)

/-- The positional difference heuristic (src/index.js lines 115-116):
`freshBooks.length !== cachedBooks.length || freshBooks.some((book, index) =>
cachedBooks[index] && book.id !== cachedBooks[index].id)`.  An out-of-range or
falsy `cachedBooks[index]` short-circuits its conjunct to false, so only
positions holding a truthy cached object are compared; `List.zip` drops the
out-of-range indices for us. -/
def booksAreDifferent (fresh : List Book) (cached : List Entry) : Bool :=
  (fresh.length != cached.length) ||
    (List.zip fresh cached).any (fun p => match p.2 with
      | Entry.book cb => p.1.id != cb.id
      | _ => false)

/-- Result of the cache-loading phase of `fetchAndDisplayBooks` (src/index.js
lines 86-101): the state after it, the value of the local `cachedBooks`
variable, whether `cachedBooksJSON` was truthy, and the effects emitted. -/
structure Phase1 where
  env : Env
  cachedBooks : List Entry
  hadJSON : Bool
  fx : List Effect
deriving DecidableEq, Repr

/-- The cache-loading phase of `fetchAndDisplayBooks` (src/index.js lines
86-101).  Absent key: show the loading message and clear the container.
Present key: try `JSON.parse` then `renderBooks` then hide the loading
message; a throw from either (corrupt string, or a `null` entry during the
render) lands in the catch, which removes the stored value and nothing else.
Note `cachedBooks` keeps the parsed array when only the render threw. -/
def loadCachePhase (e : Env) : Phase1 :=
  match e.cache with
  | none =>
      { env := { dom := { display := Display.cards [], loadingHidden := false },
                 cache := none },
        cachedBooks := [], hadJSON := false, fx := [] }
  | some (CachedData.corrupt _) =>
      { env := { dom := e.dom, cache := none },
        cachedBooks := [], hadJSON := true, fx := [Effect.removeCache] }
  | some (CachedData.arr l) =>
      let r := renderBooks l
      if r.2 then
        { env := { dom := { display := r.1, loadingHidden := e.dom.loadingHidden },
                   cache := none },
          cachedBooks := l, hadJSON := true,
          fx := [Effect.render l, Effect.removeCache] }
      else
        { env := { dom := { display := r.1, loadingHidden := true },
                   cache := e.cache },
          cachedBooks := l, hadJSON := true, fx := [Effect.render l] }

/-- Outcome of the `GET /books` fetch: a parsed fresh list on a 2xx response,
or a failure (network error or non-2xx status) carrying `error.message`. -/
inductive FetchResult where
  | success (books : List Book)
  | failure (msg : String)
deriving DecidableEq, Repr

/-- `fetchAndDisplayBooks` (src/index.js lines 84-140) with the fetch outcome
as a parameter.  After the cache phase: on success, re-render and overwrite
the cache when `areBooksDifferent || !cachedBooksJSON`, else leave both alone;
hide the loading message either way.  On failure, hide the loading message and
render the error message exactly when `!cachedBooksJSON ||
cachedBooks.length === 0`. -/
def fetchAndDisplayBooks (res : FetchResult) (e : Env) : Env × List Effect :=
  let p := loadCachePhase e
  match res with
  | FetchResult.success fresh =>
      if booksAreDifferent fresh p.cachedBooks || !p.hadJSON then
        let r := renderBooks (fresh.map Entry.book)
        ({ dom := { display := r.1, loadingHidden := true },
           cache := some (CachedData.arr (fresh.map Entry.book)) },
         p.fx ++ [Effect.netGet, Effect.render (fresh.map Entry.book),
                  Effect.setCache (fresh.map Entry.book)])
      else
        ({ dom := { display := p.env.dom.display, loadingHidden := true },
           cache := p.env.cache },
         p.fx ++ [Effect.netGet])
  | FetchResult.failure m =>
      if !p.hadJSON || p.cachedBooks.isEmpty then
        ({ dom := { display := Display.errorMsg m, loadingHidden := true },
           cache := p.env.cache },
         p.fx ++ [Effect.netGet])
      else
        ({ dom := { display := p.env.dom.display, loadingHidden := true },
           cache := p.env.cache },
         p.fx ++ [Effect.netGet])

/-- Models `String.prototype.trim`: strip leading and trailing whitespace. -/
def jsTrim (s : String) : String :=
  String.mk (((s.toList.dropWhile Char.isWhitespace).reverse.dropWhile
    Char.isWhitespace).reverse)

/-- Models `parseInt(s, 10)`: skip leading whitespace, read an optional sign,
then the longest leading run of decimal digits; the result is NaN (here
`none`) when that run is empty. -/
def parseIntBase10 (s : String) : Option Int :=
  let cs := s.toList.dropWhile Char.isWhitespace
  let signed : Bool × List Char :=
    match cs with
    | '-' :: rest => (true, rest)
    | '+' :: rest => (false, rest)
    | _ => (false, cs)
  let digits := signed.2.takeWhile Char.isDigit
  if digits.isEmpty then none
  else
    let n : Nat := digits.foldl (fun acc c => acc * 10 + (c.toNat - '0'.toNat)) 0
    some (if signed.1 then -(n : Int) else (n : Int))

/-- The raw values read from the four form inputs. -/
structure FormInput where
  title : String
  author : String
  year : String
  genre : String
deriving DecidableEq, Repr

/-- The new-record object built by the create handler (src/index.js lines
160-165). -/
structure NewBook where
  title : String
  author : String
  year : Int
  genre : String
deriving DecidableEq, Repr

/-- `JSON.stringify` of the object literal `{ title, author, year,
genre: genre || 'Unknown' }`: an ordered list of key/value fields, in the
order the literal writes them. -/
def serializeNewBook (b : NewBook) : List (String × JVal) :=
  [("title", JVal.str b.title), ("author", JVal.str b.author),
   ("year", JVal.int b.year), ("genre", JVal.str b.genre)]

/-- The validation alert text (src/index.js line 155). -/
def validationMsg : String :=
  "Please fill in all required fields (Title, Author, and a valid Publication Year)."

/-- `handleBookFormSubmit` (src/index.js lines 145-203) with the POST outcome
and the fetch outcome of the follow-up loader run as parameters.  Validation:
`if (!title || !author || isNaN(year) || year === null)` — `parseInt` never
returns `null`, so the last disjunct is vacuous.  On a valid submission the
payload is posted; a failure (non-2xx or network error, `m` standing for
`error.message`) alerts and changes nothing; on success the full loader
sequence reruns and the form is reset. -/
def handleBookFormSubmit (form : FormInput) (post : Except String Book)
    (refetch : FetchResult) (e : Env) : Env × List Effect :=
  let title := jsTrim form.title
  let author := jsTrim form.author
  let genre := jsTrim form.genre
  match parseIntBase10 form.year with
  | none => (e, [Effect.alert validationMsg])
  | some y =>
      if title = "" ∨ author = "" then
        (e, [Effect.alert validationMsg])
      else
        let newBook : NewBook :=
          { title := title, author := author, year := y,
            genre := if genre = "" then "Unknown" else genre }
        match post with
        | Except.error m =>
            (e, [Effect.netPost (serializeNewBook newBook),
                 Effect.alert ("Failed to add book: " ++ m ++ ". Please try again.")])
        | Except.ok _created =>
            let run := fetchAndDisplayBooks refetch e
            (run.1, Effect.netPost (serializeNewBook newBook)
                      :: run.2 ++ [Effect.formReset])

/-- Child-element count of the container, read by the delete handler's
empty-state check (`booksContainer.children.length`). -/
def childCount : Display → Nat
  | Display.pageInitial n => n
  | Display.cards l => l.length
  | Display.noBooksMsg => 1
  | Display.errorMsg _ => 1

/-- `bookCardElement.remove()`: drop the card at index `i` from a rendered
container; on any other content the element to remove does not exist there
and nothing changes. -/
def removeCard (d : Display) (i : Nat) : Display :=
  match d with
  | Display.cards l => Display.cards (l.eraseIdx i)
  | d => d

/-- The cache filter callback `book => book.id !== bookId`: a falsy primitive
entry has `.id === undefined`, which differs from any string id, so it is
kept; a `null` entry makes the read throw. -/
def entryKept (bookId : String) : Entry → Bool
  | Entry.book b => b.id != bookId
  | Entry.falsy => true
  | Entry.nullE => true

/-- Whether filtering the parsed cache array throws: it does exactly when
some entry is `null` (reading `.id` of `null`). -/
def filterThrows (l : List Entry) : Bool :=
  l.any (fun en => match en with
    | Entry.nullE => true
    | _ => false)

/-- Model stand-in for the engine's TypeError message raised when the filter
callback reads `.id` of a `null` entry (the exact text is
engine-dependent). -/
def nullIdErrorMsg : String := "Cannot read properties of null"

/-- The delete-failure alert text (src/index.js line 252). -/
def deleteFailMsg (m : String) : String :=
  "Failed to delete book: " ++ m ++ ". Please try again."

/-- `deleteBook` (src/index.js lines 209-254) with the DELETE outcome as a
parameter (`Except.error m` covers a network error or a non-2xx response,
`m` standing for `error.message`).  On failure nothing before the catch ran,
so state is untouched and the alert fires.  On success the card is removed
first; then the cache read-modify-write runs inside the same try: absent
cache skips it, a corrupt cache makes `JSON.parse` throw (alert, corrupt
value retained, empty-state check skipped), a `null` entry makes the filter
throw likewise; otherwise the filtered array is stored and the empty-state
message appears when the container has no children left. -/
def deleteBook (bookId : String) (cardIdx : Nat) (res : Except String Unit)
    (e : Env) : Env × List Effect :=
  match res with
  | Except.error m =>
      (e, [Effect.netDelete bookId, Effect.alert (deleteFailMsg m)])
  | Except.ok _ =>
      let d1 := removeCard e.dom.display cardIdx
      match e.cache with
      | none =>
          let d2 := if childCount d1 = 0 then Display.noBooksMsg else d1
          ({ dom := { display := d2, loadingHidden := e.dom.loadingHidden },
             cache := none },
           [Effect.netDelete bookId])
      | some (CachedData.corrupt em) =>
          ({ dom := { display := d1, loadingHidden := e.dom.loadingHidden },
             cache := some (CachedData.corrupt em) },
           [Effect.netDelete bookId, Effect.alert (deleteFailMsg em)])
      | some (CachedData.arr l) =>
          if filterThrows l then
            ({ dom := { display := d1, loadingHidden := e.dom.loadingHidden },
               cache := some (CachedData.arr l) },
             [Effect.netDelete bookId, Effect.alert (deleteFailMsg nullIdErrorMsg)])
          else
            let filtered := l.filter (entryKept bookId)
            let d2 := if childCount d1 = 0 then Display.noBooksMsg else d1
            ({ dom := { display := d2, loadingHidden := e.dom.loadingHidden },
               cache := some (CachedData.arr filtered) },
             [Effect.netDelete bookId, Effect.setCache filtered])

/-! ## Auxiliary lemmas -/

theorem takeWhile_book (C : List Book) :
    (C.map Entry.book).takeWhile (fun e => match e with
      | Entry.nullE => false
      | _ => true) = C.map Entry.book := by
  induction C with
  | nil => simp
  | cons c C ih => simp [List.takeWhile_cons, ih]

theorem renderBooks_books_eq (C : List Book) (h : C ≠ []) :
    renderBooks (C.map Entry.book) = (Display.cards (C.map Entry.book), false) := by
  cases C with
  | nil => exact absurd rfl h
  | cons c C => simp [renderBooks, takeWhile_book]

theorem renderBooks_no_throw (C : List Book) :
    (renderBooks (C.map Entry.book)).2 = false := by
  cases C with
  | nil => rfl
  | cons c C => rw [renderBooks_books_eq (c :: C) (by simp)]

/-- Phase 1 of the loader on a cache that parses to a plain list of book
records: instant render, loading hidden, cache untouched. -/
theorem loadCachePhase_arr_books (e : Env) (C : List Book)
    (h : e.cache = some (CachedData.arr (C.map Entry.book))) :
    loadCachePhase e =
      { env := { dom := { display := (renderBooks (C.map Entry.book)).1,
                          loadingHidden := true },
                 cache := e.cache },
        cachedBooks := C.map Entry.book, hadJSON := true,
        fx := [Effect.render (C.map Entry.book)] } := by
  simp [loadCachePhase, h, renderBooks_no_throw C]

/-- Phase 1 of the loader on any cache that parses to an array keeps the
parsed array in `cachedBooks` and reads the key as present. -/
theorem loadCachePhase_arr_basic (e : Env) (l : List Entry)
    (h : e.cache = some (CachedData.arr l)) :
    (loadCachePhase e).cachedBooks = l ∧ (loadCachePhase e).hadJSON = true := by
  simp only [loadCachePhase, h]
  split <;> simp

/-- The positional heuristic reports "identical" whenever the lengths agree
and every position holding a truthy cached record has a matching id. -/
theorem booksAreDifferent_false_of_truthyMatch (R : List Book) (Cent : List Entry)
    (hlen : R.length = Cent.length)
    (hid : ∀ (i : Nat) (b : Book) (r : Book),
      Cent[i]? = some (Entry.book b) → R[i]? = some r → r.id = b.id) :
    booksAreDifferent R Cent = false := by
  induction R generalizing Cent with
  | nil =>
      cases Cent with
      | nil => rfl
      | cons en Cent => simp at hlen
  | cons r R ih =>
      cases Cent with
      | nil => simp at hlen
      | cons en Cent =>
          have hlen' : R.length = Cent.length := by simpa using hlen
          have htail := ih Cent hlen' (fun i b r hb hr =>
            hid (i + 1) b r (by simpa using hb) (by simpa using hr))
          simp only [booksAreDifferent, List.zip_cons_cons, List.any_cons,
            Bool.or_eq_false_iff] at htail ⊢
          refine ⟨by simp [hlen'], ?_, htail.2⟩
          cases en with
          | book b =>
              have := hid 0 b r (by simp) (by simp)
              simp [this]
          | nullE => rfl
          | falsy => rfl

/-- Converse direction: an "identical" verdict against a cache of plain book
records forces positionally equal ids (hence equal lengths). -/
theorem map_id_of_not_different (R C : List Book)
    (h : booksAreDifferent R (C.map Entry.book) = false) :
    R.map Book.id = C.map Book.id := by
  induction R generalizing C with
  | nil =>
      cases C with
      | nil => rfl
      | cons c C => simp [booksAreDifferent] at h
  | cons r R ih =>
      cases C with
      | nil => simp [booksAreDifferent] at h
      | cons c C =>
          simp only [booksAreDifferent, List.map_cons, List.zip_cons_cons,
            List.any_cons, Bool.or_eq_false_iff, List.length_cons,
            List.length_map, bne_eq_false_iff_eq] at h
          obtain ⟨h1, h2, h3⟩ := h
          have : booksAreDifferent R (C.map Entry.book) = false := by
            simp only [booksAreDifferent, Bool.or_eq_false_iff, List.length_map,
              bne_eq_false_iff_eq]
            exact ⟨by omega, h3⟩
          simp only [List.map_cons, List.cons.injEq]
          exact ⟨by simpa using h2, ih C this⟩

/-- Positionally equal ids against a cache of plain records give the
"identical" verdict. -/
theorem different_false_of_map_id (R C : List Book)
    (h : R.map Book.id = C.map Book.id) :
    booksAreDifferent R (C.map Entry.book) = false := by
  have hlen : R.length = C.length := by
    have := congrArg List.length h
    simpa using this
  refine booksAreDifferent_false_of_truthyMatch R (C.map Entry.book)
    (by simpa using hlen) ?_
  intro i b r hb hr
  have hCi : C[i]? = some b := by
    rcases hCi : C[i]? with _ | c
    · simp [List.getElem?_map, hCi] at hb
    · simp only [List.getElem?_map, hCi, Option.map_some] at hb
      simpa using hb
  have := congrArg (fun l => l[i]?) h
  simp only [List.getElem?_map, hr, hCi] at this
  simpa using this

/-- Any length difference or positional id difference gives the "different"
verdict. -/
theorem different_true_of_witness (R C : List Book)
    (h : R.length ≠ C.length ∨ ∃ (i : Nat) (r c : Book),
      R[i]? = some r ∧ C[i]? = some c ∧ r.id ≠ c.id) :
    booksAreDifferent R (C.map Entry.book) = true := by
  rcases hb : booksAreDifferent R (C.map Entry.book)
  · exfalso
    have hmap := map_id_of_not_different R C hb
    rcases h with h | ⟨i, r, c, hr, hc, hne⟩
    · exact h (by simpa using congrArg List.length hmap)
    · have := congrArg (fun l => l[i]?) hmap
      simp only [List.getElem?_map, hr, hc] at this
      exact hne (by simpa using this)
  · rfl

/-- The cache filter never throws over a cache of plain book records. -/
theorem filterThrows_map_book (C : List Book) :
    filterThrows (C.map Entry.book) = false := by
  induction C with
  | nil => rfl
  | cons c C ih => exact ih

/-- Over a cache of plain book records, the JS filter keeps exactly the
records whose id differs from the target. -/
theorem filter_entryKept_map_book (X : String) (C : List Book) :
    (C.map Entry.book).filter (entryKept X) =
      (C.filter (fun b => b.id != X)).map Entry.book := by
  induction C with
  | nil => rfl
  | cons c C ih =>
      by_cases h : c.id = X
      · simp [List.filter_cons, entryKept, h, ih]
      · simp [List.filter_cons, entryKept, h, ih]

/-! ## Claim theorems -/

/-- C1.  For every cache snapshot `C` successfully read and parsed at startup
and every fresh remote list `R`: when lengths agree and the ids agree at
every position, reconciliation leaves the displayed list as the instant
render of `C` and the stored snapshot equal to `C`; the effect trace is
exactly the startup render of `C` followed by the fetch — no second
`renderBooks` call and no cache write. -/
theorem loader_identical_keeps_cache (C R : List Book) (e : Env)
    (hc : e.cache = some (CachedData.arr (C.map Entry.book)))
    (hlen : R.length = C.length)
    (hid : ∀ (i : Nat) (r c : Book), R[i]? = some r → C[i]? = some c → r.id = c.id) :
    fetchAndDisplayBooks (FetchResult.success R) e =
      ({ dom := { display := (renderBooks (C.map Entry.book)).1,
                  loadingHidden := true },
         cache := some (CachedData.arr (C.map Entry.book)) },
       [Effect.render (C.map Entry.book), Effect.netGet]) := by
  have hdiff : booksAreDifferent R (C.map Entry.book) = false := by
    refine booksAreDifferent_false_of_truthyMatch R (C.map Entry.book)
      (by simpa using hlen) ?_
    intro i b r hb hr
    rcases hCi : C[i]? with _ | c
    · simp [List.getElem?_map, hCi] at hb
    · have : c = b := by
        simp only [List.getElem?_map, hCi] at hb
        simpa using hb
      exact this ▸ hid i r c hr hCi
  simp only [fetchAndDisplayBooks, loadCachePhase_arr_books e C hc]
  rw [hdiff]
  simp [hc]

/-- C1 witness: a two-record cache and a fresh list with equal ids position
by position leave display, cache and effects exactly as the startup render
of the cache. -/
theorem loader_identical_keeps_cache_witness :
    fetchAndDisplayBooks
      (FetchResult.success [⟨"1", "T1x", "A1", 2001, "G"⟩, ⟨"2", "T2x", "A2", 2002, "G"⟩])
      { dom := { display := Display.pageInitial 1, loadingHidden := true },
        cache := some (CachedData.arr
          ([⟨"1", "T1", "A1", 2001, "G"⟩, ⟨"2", "T2", "A2", 2002, "G"⟩].map Entry.book)) } =
      ({ dom := { display := (renderBooks
                    ([⟨"1", "T1", "A1", 2001, "G"⟩,
                      ⟨"2", "T2", "A2", 2002, "G"⟩].map Entry.book)).1,
                  loadingHidden := true },
         cache := some (CachedData.arr
           ([⟨"1", "T1", "A1", 2001, "G"⟩, ⟨"2", "T2", "A2", 2002, "G"⟩].map Entry.book)) },
       [Effect.render ([⟨"1", "T1", "A1", 2001, "G"⟩, ⟨"2", "T2", "A2", 2002, "G"⟩].map Entry.book),
        Effect.netGet]) := by
  refine loader_identical_keeps_cache
    [⟨"1", "T1", "A1", 2001, "G"⟩, ⟨"2", "T2", "A2", 2002, "G"⟩] _ _ rfl (by decide) ?_
  intro i r c h1 h2
  rcases i with _ | _ | i <;> simp_all <;> subst_vars <;> rfl

/-- C2.  For every startup-loaded cache snapshot `C` and fresh list `R` that
differ in length or in the id at some position, reconciliation re-renders
from `R` and overwrites the cache snapshot with `R`. -/
theorem loader_different_overwrites (C R : List Book) (e : Env)
    (hc : e.cache = some (CachedData.arr (C.map Entry.book)))
    (hne : R.length ≠ C.length ∨ ∃ (i : Nat) (r c : Book),
      R[i]? = some r ∧ C[i]? = some c ∧ r.id ≠ c.id) :
    fetchAndDisplayBooks (FetchResult.success R) e =
      ({ dom := { display := (renderBooks (R.map Entry.book)).1,
                  loadingHidden := true },
         cache := some (CachedData.arr (R.map Entry.book)) },
       [Effect.render (C.map Entry.book), Effect.netGet,
        Effect.render (R.map Entry.book), Effect.setCache (R.map Entry.book)]) := by
  have hdiff := different_true_of_witness R C hne
  simp only [fetchAndDisplayBooks, loadCachePhase_arr_books e C hc]
  rw [hdiff]
  simp

/-- C2 witness: a one-record cache against a two-record fresh list re-renders
and overwrites the snapshot with the fresh list. -/
theorem loader_different_overwrites_witness :
    fetchAndDisplayBooks
      (FetchResult.success [⟨"1", "A", "A1", 2001, "G"⟩, ⟨"2", "B", "A2", 2002, "G"⟩])
      { dom := { display := Display.pageInitial 1, loadingHidden := true },
        cache := some (CachedData.arr ([⟨"1", "A", "A1", 2001, "G"⟩].map Entry.book)) } =
      ({ dom := { display := (renderBooks
                    ([⟨"1", "A", "A1", 2001, "G"⟩,
                      ⟨"2", "B", "A2", 2002, "G"⟩].map Entry.book)).1,
                  loadingHidden := true },
         cache := some (CachedData.arr
           ([⟨"1", "A", "A1", 2001, "G"⟩, ⟨"2", "B", "A2", 2002, "G"⟩].map Entry.book)) },
       [Effect.render ([⟨"1", "A", "A1", 2001, "G"⟩].map Entry.book), Effect.netGet,
        Effect.render ([⟨"1", "A", "A1", 2001, "G"⟩, ⟨"2", "B", "A2", 2002, "G"⟩].map Entry.book),
        Effect.setCache
          ([⟨"1", "A", "A1", 2001, "G"⟩, ⟨"2", "B", "A2", 2002, "G"⟩].map Entry.book)]) := by
  exact loader_different_overwrites [⟨"1", "A", "A1", 2001, "G"⟩] _ _ rfl
    (Or.inl (by decide))

/-- C10.  In the difference check a falsy cached entry is treated as matching
the fresh record opposite it: with equal lengths and matching ids at every
truthy position the lists are judged identical, and the run changes nothing
after the cache phase — display and cache stay as phase 1 left them and the
only further effect is the fetch itself. -/
theorem loader_falsy_entries_match (R : List Book) (Cent : List Entry) (e : Env)
    (hc : e.cache = some (CachedData.arr Cent))
    (hlen : R.length = Cent.length)
    (hid : ∀ (i : Nat) (b : Book) (r : Book),
      Cent[i]? = some (Entry.book b) → R[i]? = some r → r.id = b.id) :
    booksAreDifferent R Cent = false ∧
    fetchAndDisplayBooks (FetchResult.success R) e =
      ({ dom := { display := (loadCachePhase e).env.dom.display,
                  loadingHidden := true },
         cache := (loadCachePhase e).env.cache },
       (loadCachePhase e).fx ++ [Effect.netGet]) := by
  have hdiff := booksAreDifferent_false_of_truthyMatch R Cent hlen hid
  obtain ⟨hcb, hj⟩ := loadCachePhase_arr_basic e Cent hc
  refine ⟨hdiff, ?_⟩
  simp only [fetchAndDisplayBooks, hcb, hj, hdiff]
  simp

/-- C10 witness: a falsy cached entry opposite a real fresh record is judged
a match, so nothing is re-rendered or written. -/
theorem loader_falsy_entries_match_witness :
    booksAreDifferent [⟨"1", "T", "A", 2000, "G"⟩] [Entry.falsy] = false ∧
    fetchAndDisplayBooks (FetchResult.success [⟨"1", "T", "A", 2000, "G"⟩])
      { dom := { display := Display.pageInitial 1, loadingHidden := true },
        cache := some (CachedData.arr [Entry.falsy]) } =
      ({ dom := { display := (loadCachePhase
                    { dom := { display := Display.pageInitial 1, loadingHidden := true },
                      cache := some (CachedData.arr [Entry.falsy]) }).env.dom.display,
                  loadingHidden := true },
         cache := (loadCachePhase
            { dom := { display := Display.pageInitial 1, loadingHidden := true },
              cache := some (CachedData.arr [Entry.falsy]) }).env.cache },
       (loadCachePhase
          { dom := { display := Display.pageInitial 1, loadingHidden := true },
            cache := some (CachedData.arr [Entry.falsy]) }).fx ++ [Effect.netGet]) := by
  refine loader_falsy_entries_match [⟨"1", "T", "A", 2000, "G"⟩] [Entry.falsy] _ rfl
    (by decide) ?_
  intro i b r h1 h2
  rcases i with _ | i <;> simp_all

/-- C3.  A successful delete of id `X` turns a prior cache snapshot of
records into the same snapshot with exactly the records whose id equals `X`
removed, every other record preserved in order; with no cache snapshot the
cache-update step is a no-op and the slot stays empty. -/
theorem delete_cache_minus_id (X : String) (i : Nat) (e : Env) :
    (∀ C : List Book, e.cache = some (CachedData.arr (C.map Entry.book)) →
      (deleteBook X i (Except.ok ()) e).1.cache =
        some (CachedData.arr ((C.filter (fun b => b.id != X)).map Entry.book))) ∧
    (e.cache = none → (deleteBook X i (Except.ok ()) e).1.cache = none) := by
  constructor
  · intro C hc
    simp [deleteBook, hc, filterThrows_map_book, filter_entryKept_map_book]
  · intro hc
    simp [deleteBook, hc]

/-- C3 witness: deleting id "2" from a cached pair keeps record "1" and drops
record "2"; deleting with no cache leaves the slot empty. -/
theorem delete_cache_minus_id_witness :
    (deleteBook "2" 1 (Except.ok ())
      { dom := { display := Display.cards
                  ([⟨"1", "T1", "A1", 2001, "G"⟩, ⟨"2", "T2", "A2", 2002, "G"⟩].map Entry.book),
                 loadingHidden := true },
        cache := some (CachedData.arr
          ([⟨"1", "T1", "A1", 2001, "G"⟩, ⟨"2", "T2", "A2", 2002, "G"⟩].map Entry.book)) }).1.cache
      = some (CachedData.arr ([⟨"1", "T1", "A1", 2001, "G"⟩].map Entry.book)) ∧
    (deleteBook "2" 0 (Except.ok ())
      { dom := { display := Display.cards [], loadingHidden := true },
        cache := none }).1.cache = none := by
  constructor
  · have h := (delete_cache_minus_id "2" 1
      { dom := { display := Display.cards
                  ([⟨"1", "T1", "A1", 2001, "G"⟩, ⟨"2", "T2", "A2", 2002, "G"⟩].map Entry.book),
                 loadingHidden := true },
        cache := some (CachedData.arr
          ([⟨"1", "T1", "A1", 2001, "G"⟩, ⟨"2", "T2", "A2", 2002, "G"⟩].map Entry.book)) }).1
      [⟨"1", "T1", "A1", 2001, "G"⟩, ⟨"2", "T2", "A2", 2002, "G"⟩] rfl
    exact h.trans (by decide)
  · exact (delete_cache_minus_id "2" 0
      { dom := { display := Display.cards [], loadingHidden := true },
        cache := none }).2 rfl

/-- C8.  A failed delete (non-2xx response or network error) leaves the whole
state — display and cache — unchanged and surfaces the failure alert. -/
theorem delete_failure_atomic (X : String) (i : Nat) (m : String) (e : Env) :
    deleteBook X i (Except.error m) e =
      (e, [Effect.netDelete X, Effect.alert (deleteFailMsg m)]) := rfl

/-- C6.  A submission whose trimmed title is empty, whose trimmed author is
empty, or whose year does not parse as an integer only raises the validation
alert: no network request, and the state (display and cache) is returned
untouched. -/
theorem create_invalid_blocked (form : FormInput) (post : Except String Book)
    (refetch : FetchResult) (e : Env)
    (h : jsTrim form.title = "" ∨ jsTrim form.author = "" ∨
      parseIntBase10 form.year = none) :
    handleBookFormSubmit form post refetch e = (e, [Effect.alert validationMsg]) := by
  cases hy : parseIntBase10 form.year with
  | none => simp [handleBookFormSubmit, hy]
  | some y =>
      rcases h with h | h | h
      · simp [handleBookFormSubmit, hy, h]
      · simp [handleBookFormSubmit, hy, h]
      · rw [hy] at h; cases h

/-- C6 witness: a whitespace-only title blocks the submission with the
validation alert and leaves the state untouched. -/
theorem create_invalid_blocked_witness :
    jsTrim " " = "" ∧
    handleBookFormSubmit ⟨" ", "An Author", "1999", "Fiction"⟩ (Except.error "x")
        (FetchResult.failure "y")
        { dom := { display := Display.pageInitial 0, loadingHidden := true },
          cache := none } =
      ({ dom := { display := Display.pageInitial 0, loadingHidden := true },
         cache := none },
       [Effect.alert validationMsg]) :=
  ⟨by decide, create_invalid_blocked _ _ _ _ (Or.inl (by decide))⟩

/-- C9.  On every valid submission the first effect is the POST whose payload
serializes exactly the fields title, author, year and genre (in that order),
and in particular carries no `id` field: the client never produces an id. -/
theorem create_payload_has_no_id (form : FormInput) (post : Except String Book)
    (refetch : FetchResult) (e : Env) (y : Int)
    (ht : jsTrim form.title ≠ "") (ha : jsTrim form.author ≠ "")
    (hy : parseIntBase10 form.year = some y) :
    (handleBookFormSubmit form post refetch e).2.head? =
      some (Effect.netPost (serializeNewBook
        { title := jsTrim form.title, author := jsTrim form.author, year := y,
          genre := if jsTrim form.genre = "" then "Unknown"
                   else jsTrim form.genre })) ∧
    ∀ b : NewBook, (serializeNewBook b).map Prod.fst =
        ["title", "author", "year", "genre"] ∧
      "id" ∉ (serializeNewBook b).map Prod.fst := by
  constructor
  · simp only [handleBookFormSubmit, hy]
    rw [if_neg (by simp [ht, ha])]
    cases post <;> simp
  · intro b
    refine ⟨rfl, ?_⟩
    simp [serializeNewBook]

/-- C9 witness: a concrete valid submission posts the four-field payload
first, and the payload keys carry no id. -/
theorem create_payload_has_no_id_witness :
    jsTrim "Dune" ≠ "" ∧ jsTrim "Herbert" ≠ "" ∧ parseIntBase10 "1965" = some 1965 ∧
    (handleBookFormSubmit ⟨"Dune", "Herbert", "1965", ""⟩ (Except.error "x")
        (FetchResult.failure "y")
        { dom := { display := Display.pageInitial 0, loadingHidden := true },
          cache := none }).2.head? =
      some (Effect.netPost (serializeNewBook
        { title := jsTrim "Dune", author := jsTrim "Herbert", year := 1965,
          genre := if jsTrim "" = "" then "Unknown" else jsTrim "" })) ∧
    "id" ∉ (serializeNewBook
        { title := jsTrim "Dune", author := jsTrim "Herbert", year := (1965 : Int),
          genre := "Unknown" }).map Prod.fst := by
  refine ⟨by decide, by decide, by decide, ?_, ?_⟩
  · exact (create_payload_has_no_id ⟨"Dune", "Herbert", "1965", ""⟩ (Except.error "x")
      (FetchResult.failure "y")
      { dom := { display := Display.pageInitial 0, loadingHidden := true },
        cache := none } 1965 (by decide) (by decide) (by decide)).1
  · exact ((create_payload_has_no_id ⟨"Dune", "Herbert", "1965", ""⟩ (Except.error "x")
      (FetchResult.failure "y")
      { dom := { display := Display.pageInitial 0, loadingHidden := true },
        cache := none } 1965 (by decide) (by decide) (by decide)).2
      { title := jsTrim "Dune", author := jsTrim "Herbert", year := (1965 : Int),
        genre := "Unknown" }).2

/-- C4 (amended).  On startup with no cache snapshot the Loader shows the
loading indicator and empties the display, and nothing else happens until
the fetch settles.  With a present-but-unparseable snapshot it only discards
the stored value: the loading indicator and the display are left exactly as
they were. -/
theorem loader_startup_no_or_corrupt_cache (e : Env) :
    (e.cache = none →
      loadCachePhase e =
        { env := { dom := { display := Display.cards [], loadingHidden := false },
                   cache := none },
          cachedBooks := [], hadJSON := false, fx := [] }) ∧
    (∀ em, e.cache = some (CachedData.corrupt em) →
      loadCachePhase e =
        { env := { dom := e.dom, cache := none },
          cachedBooks := [], hadJSON := true, fx := [Effect.removeCache] }) := by
  constructor
  · intro hc; simp [loadCachePhase, hc]
  · intro em hc; simp [loadCachePhase, hc]

/-- C4 witness: with an absent cache the loading indicator turns visible and
the container is emptied; with a corrupt cache the stored value is removed
and the DOM stays put. -/
theorem loader_startup_no_or_corrupt_cache_witness :
    loadCachePhase { dom := { display := Display.pageInitial 2, loadingHidden := true },
                     cache := none } =
      { env := { dom := { display := Display.cards [], loadingHidden := false },
                 cache := none },
        cachedBooks := [], hadJSON := false, fx := [] } ∧
    loadCachePhase { dom := { display := Display.pageInitial 2, loadingHidden := true },
                     cache := some (CachedData.corrupt "bad json") } =
      { env := { dom := { display := Display.pageInitial 2, loadingHidden := true },
                 cache := none },
        cachedBooks := [], hadJSON := true, fx := [Effect.removeCache] } :=
  ⟨(loader_startup_no_or_corrupt_cache
      { dom := { display := Display.pageInitial 2, loadingHidden := true },
        cache := none }).1 rfl,
   (loader_startup_no_or_corrupt_cache
      { dom := { display := Display.pageInitial 2, loadingHidden := true },
        cache := some (CachedData.corrupt "bad json") }).2 "bad json" rfl⟩

/-- C4 counterexample.  Starting from a hidden loading indicator and the
page's static markup, a present-but-unparseable cache leaves the loading
indicator hidden and the display non-empty: the Loader does not show the
indicator and does not empty the display on the parse-failure path, contrary
to the claim. -/
theorem loader_corrupt_no_loading_shown :
    (loadCachePhase { dom := { display := Display.pageInitial 1, loadingHidden := true },
                      cache := some (CachedData.corrupt "bad") }).env.dom.loadingHidden
      = true ∧
    (loadCachePhase { dom := { display := Display.pageInitial 1, loadingHidden := true },
                      cache := some (CachedData.corrupt "bad") }).env.dom.display
      = Display.pageInitial 1 ∧
    Display.pageInitial 1 ≠ Display.cards [] := by
  refine ⟨rfl, rfl, by decide⟩

/-- C5 (amended).  When the fetch fails: if no cache string existed, or the
stored value was corrupt, or it parsed to the empty list, the error message
carrying the failure reason replaces the list; if a nonempty valid snapshot
was read at startup, the cache-derived display is left unchanged, the cache
is kept, and no error message is shown. -/
theorem loader_failure_stale_policy (m : String) (e : Env) :
    ((e.cache = none ∨ (∃ em, e.cache = some (CachedData.corrupt em)) ∨
        e.cache = some (CachedData.arr [])) →
      (fetchAndDisplayBooks (FetchResult.failure m) e).1.dom.display =
        Display.errorMsg m) ∧
    (∀ C : List Book, C ≠ [] →
      e.cache = some (CachedData.arr (C.map Entry.book)) →
      fetchAndDisplayBooks (FetchResult.failure m) e =
        ({ dom := { display := Display.cards (C.map Entry.book),
                    loadingHidden := true },
           cache := e.cache },
         [Effect.render (C.map Entry.book), Effect.netGet]) ∧
      Display.cards (C.map Entry.book) ≠ Display.errorMsg m) := by
  constructor
  · rintro (hc | ⟨em, hc⟩ | hc) <;> simp [fetchAndDisplayBooks, loadCachePhase, hc, renderBooks]
  · intro C hC hc
    have hne : (C.map Entry.book).isEmpty = false := by
      cases C with
      | nil => exact absurd rfl hC
      | cons c C => rfl
    refine ⟨?_, by simp⟩
    simp only [fetchAndDisplayBooks, loadCachePhase_arr_books e C hc,
      renderBooks_books_eq C hC, hne]
    simp [hc]

/-- C5 witness: on fetch failure a nonempty valid cache keeps its render on
screen with no error message, while an absent cache yields the error
message. -/
theorem loader_failure_stale_policy_witness :
    fetchAndDisplayBooks (FetchResult.failure "HTTP error! status: 500")
      { dom := { display := Display.pageInitial 1, loadingHidden := true },
        cache := some (CachedData.arr ([⟨"1", "T", "A", 2000, "G"⟩].map Entry.book)) } =
      ({ dom := { display := Display.cards ([⟨"1", "T", "A", 2000, "G"⟩].map Entry.book),
                  loadingHidden := true },
         cache := some (CachedData.arr ([⟨"1", "T", "A", 2000, "G"⟩].map Entry.book)) },
       [Effect.render ([⟨"1", "T", "A", 2000, "G"⟩].map Entry.book), Effect.netGet]) ∧
    (fetchAndDisplayBooks (FetchResult.failure "HTTP error! status: 500")
      { dom := { display := Display.pageInitial 1, loadingHidden := true },
        cache := none }).1.dom.display =
      Display.errorMsg "HTTP error! status: 500" :=
  ⟨((loader_failure_stale_policy "HTTP error! status: 500"
      { dom := { display := Display.pageInitial 1, loadingHidden := true },
        cache := some (CachedData.arr ([⟨"1", "T", "A", 2000, "G"⟩].map Entry.book)) }).2
      [⟨"1", "T", "A", 2000, "G"⟩] (by decide) rfl).1,
   (loader_failure_stale_policy "HTTP error! status: 500"
      { dom := { display := Display.pageInitial 1, loadingHidden := true },
        cache := none }).1 (Or.inl rfl)⟩

/-- C5 counterexample.  A cache snapshot that parses to the empty list is a
valid snapshot, and it was read at startup (its render, the "No books found"
message, is on screen); yet when the fetch fails the code renders the error
message in its place, because the error branch also fires on
`cachedBooks.length === 0` — contradicting "valid cache ⇒ display unchanged
and no error shown". -/
theorem loader_failure_empty_cache_shows_error :
    fetchAndDisplayBooks (FetchResult.failure "network down")
      { dom := { display := Display.pageInitial 1, loadingHidden := true },
        cache := some (CachedData.arr []) } =
      ({ dom := { display := Display.errorMsg "network down", loadingHidden := true },
         cache := some (CachedData.arr []) },
       [Effect.render [], Effect.netGet]) ∧
    (renderBooks ([] : List Entry)).1 = Display.noBooksMsg ∧
    Display.errorMsg "network down" ≠ Display.noBooksMsg := by
  refine ⟨by decide, rfl, by decide⟩

/-- C7 (amended).  The Loader recovers silently from a corrupt stored value:
it discards it and emits nothing but the removal (no alert, no render for
the corruption).  The delete handler does not recover: on a successful
delete with a corrupt cache the read-modify-write throws, so the
delete-failure alert is surfaced and the corrupt value stays in the store,
the record's card having already been removed. -/
theorem cache_corruption_paths (em : String) (e : Env)
    (h : e.cache = some (CachedData.corrupt em)) :
    loadCachePhase e =
      { env := { dom := e.dom, cache := none },
        cachedBooks := [], hadJSON := true, fx := [Effect.removeCache] } ∧
    ∀ X i, deleteBook X i (Except.ok ()) e =
      ({ dom := { display := removeCard e.dom.display i,
                  loadingHidden := e.dom.loadingHidden },
         cache := some (CachedData.corrupt em) },
       [Effect.netDelete X, Effect.alert (deleteFailMsg em)]) := by
  constructor
  · simp [loadCachePhase, h]
  · intro X i; simp [deleteBook, h]

/-- C7 witness: a corrupt cache is silently dropped by the Loader, while the
delete handler alerts and keeps it. -/
theorem cache_corruption_paths_witness :
    loadCachePhase { dom := { display := Display.cards [Entry.book ⟨"7", "T", "A", 2000, "G"⟩],
                              loadingHidden := true },
                     cache := some (CachedData.corrupt "oops") } =
      { env := { dom := { display := Display.cards [Entry.book ⟨"7", "T", "A", 2000, "G"⟩],
                          loadingHidden := true },
                 cache := none },
        cachedBooks := [], hadJSON := true, fx := [Effect.removeCache] } ∧
    deleteBook "7" 0 (Except.ok ())
      { dom := { display := Display.cards [Entry.book ⟨"7", "T", "A", 2000, "G"⟩],
                 loadingHidden := true },
        cache := some (CachedData.corrupt "oops") } =
      ({ dom := { display := Display.cards [], loadingHidden := true },
         cache := some (CachedData.corrupt "oops") },
       [Effect.netDelete "7", Effect.alert (deleteFailMsg "oops")]) := by
  have h := cache_corruption_paths "oops"
    { dom := { display := Display.cards [Entry.book ⟨"7", "T", "A", 2000, "G"⟩],
               loadingHidden := true },
      cache := some (CachedData.corrupt "oops") } rfl
  exact ⟨h.1, (h.2 "7" 0).trans (by decide)⟩

/-- C7 counterexample.  In the delete handler a corrupt stored value is not
recovered silently: after a successful delete the corrupt value is still in
the store (not discarded) and an error alert is surfaced for it —
contradicting the claim for one of the two operations it covers. -/
theorem delete_corrupt_cache_not_silent :
    (deleteBook "7" 0 (Except.ok ())
      { dom := { display := Display.cards [Entry.book ⟨"7", "T", "A", 2000, "G"⟩],
                 loadingHidden := true },
        cache := some (CachedData.corrupt "oops") }).1.cache
      = some (CachedData.corrupt "oops") ∧
    Effect.alert (deleteFailMsg "oops") ∈
      (deleteBook "7" 0 (Except.ok ())
        { dom := { display := Display.cards [Entry.book ⟨"7", "T", "A", 2000, "G"⟩],
                   loadingHidden := true },
          cache := some (CachedData.corrupt "oops") }).2 := by
  refine ⟨rfl, by decide⟩

end BookstoreDom
